import Mathlib

/-!
Verification of the chat-api service (FastAPI + SQLAlchemy + pydantic).

The development shallowly embeds, from the source:
* the pydantic v2 validation pipeline of app/schemas/chat.py
  (field constraints applied to the raw value, then the mode-after
  field validator that strips whitespace and re-checks the bounds);
* the service operations of app/services/chat_service.py over an
  explicit relational store state, including the ORM unit-of-work
  effects that the end-of-request commit of app/database.py flushes;
* the router boundary of app/routers/chats.py (request validation
  before the handler body, translation of domain errors).

Strings are lists of unicode characters (Python `len` counts code
points), timestamps are naturals.
-/

set_option maxRecDepth 4000

namespace ChatApi

/-- A Python string, as its sequence of unicode code points. -/
abbrev PyStr := List Char

/-- The whitespace predicate of Python `str.strip()` / `str.isspace()`:
code points U+0009..U+000D, U+001C..U+001F, space, U+0085, U+00A0,
U+1680, U+2000..U+200A, U+2028, U+2029, U+202F, U+205F, U+3000. -/
def pyIsSpace (c : Char) : Bool :=
  decide ((9 ≤ c.toNat ∧ c.toNat ≤ 13) ∨ (28 ≤ c.toNat ∧ c.toNat ≤ 31) ∨
    c.toNat = 32 ∨ c.toNat = 0x85 ∨ c.toNat = 0xA0 ∨ c.toNat = 0x1680 ∨
    (0x2000 ≤ c.toNat ∧ c.toNat ≤ 0x200A) ∨ c.toNat = 0x2028 ∨
    c.toNat = 0x2029 ∨ c.toNat = 0x202F ∨ c.toNat = 0x205F ∨ c.toNat = 0x3000)

/-- Remove leading whitespace, as Python `str.lstrip()`. -/
def stripLeft (s : PyStr) : PyStr := s.dropWhile pyIsSpace

/-- Remove trailing whitespace, as Python `str.rstrip()`. -/
def stripRight (s : PyStr) : PyStr := (s.reverse.dropWhile pyIsSpace).reverse

/-- Python `str.strip()`: remove leading and trailing whitespace. -/
def pyStrip (s : PyStr) : PyStr := stripRight (stripLeft s)

/-- UTF-8 byte size of a string (used only to state that validation
bounds count characters, not bytes). -/
def utf8Length (s : PyStr) : Nat := (s.map Char.utf8Size).sum

/-- The `trim_and_validate_title` field validator of `ChatCreate`
(app/schemas/chat.py lines 19-39): strip, reject the empty result,
reject a stripped result longer than 200 characters. -/
def trim_and_validate_title (v : PyStr) : Option PyStr :=
  if (pyStrip v).length = 0 then none
  else if 200 < (pyStrip v).length then none
  else some (pyStrip v)

/-- The `trim_and_validate_text` field validator of `MessageCreate`
(app/schemas/chat.py lines 64-84): same rule with bound 5000. -/
def trim_and_validate_text (v : PyStr) : Option PyStr :=
  if (pyStrip v).length = 0 then none
  else if 5000 < (pyStrip v).length then none
  else some (pyStrip v)

/-- Full pydantic v2 validation of the `title` field of `ChatCreate`:
the `Field(min_length=1, max_length=200)` constraints run on the raw
value first, then the mode-after validator `trim_and_validate_title`. -/
def ChatCreate.validate (title : PyStr) : Option PyStr :=
  if title.length < 1 then none
  else if 200 < title.length then none
  else trim_and_validate_title title

/-- Full pydantic v2 validation of the `text` field of `MessageCreate`:
`Field(min_length=1, max_length=5000)` on the raw value, then the
mode-after validator `trim_and_validate_text`. -/
def MessageCreate.validate (text : PyStr) : Option PyStr :=
  if text.length < 1 then none
  else if 5000 < text.length then none
  else trim_and_validate_text text

example : ChatCreate.validate "  Trimmed  ".toList = some "Trimmed".toList := by decide

example : ChatCreate.validate "   ".toList = none := by decide

example : MessageCreate.validate [] = none := by decide

/-- A row of the `chats` table (app/models/chat.py, class Chat). -/
structure Chat where
  id : Nat
  title : PyStr
  created_at : Nat
deriving DecidableEq, Repr

/-- A row of the `messages` table (app/models/chat.py, class Message);
`chat_id` is the foreign key to `chats.id` with cascade delete. -/
structure Message where
  id : Nat
  chat_id : Nat
  text : PyStr
  created_at : Nat
deriving DecidableEq, Repr

/-- The persisted store: the two tables of the schema. -/
structure DB where
  chats : List Chat
  messages : List Message
deriving DecidableEq, Repr

/-- `ORDER BY created_at DESC`: most recent first. -/
abbrev createdDesc (a b : Message) : Prop := b.created_at ≤ a.created_at

instance : IsTotal Message createdDesc :=
  ⟨fun a b => Nat.le_total b.created_at a.created_at⟩

instance : IsTrans Message createdDesc :=
  ⟨fun _ _ _ hab hbc => Nat.le_trans hbc hab⟩

/-- Sort message rows by `created_at` descending. -/
def sortByCreatedDesc (ms : List Message) : List Message :=
  List.insertionSort createdDesc ms

/-- All message rows of chat `cid` (the `WHERE messages.chat_id = cid`
restriction). -/
def chatMessages (db : DB) (cid : Nat) : List Message :=
  db.messages.filter (fun m => m.chat_id == cid)

namespace ChatService

/-- `ChatService.get_chat_by_id` (chat_service.py lines 36-59):
`SELECT * FROM chats WHERE id = cid`, one row or none. -/
def get_chat_by_id (db : DB) (cid : Nat) : Option Chat :=
  db.chats.find? (fun c => c.id == cid)

/-- The paginated message query of `get_chat_with_messages`
(chat_service.py lines 90-96): filter by chat, sort by `created_at`
descending, `OFFSET offset` then `LIMIT limit`. -/
def messagesQuery (db : DB) (cid limit offset : Nat) : List Message :=
  ((sortByCreatedDesc (chatMessages db cid)).drop offset).take limit

/-- `ChatService.get_chat_with_messages` (chat_service.py lines 61-104),
together with the store effect the end-of-request commit flushes.

The returned value is the found chat paired with the queried page.
The post-commit store: the statement `chat.messages = list(messages)`
replaces the relationship collection — which `lazy="selectin"` had
eagerly loaded with every message of the chat — by the page, and the
`cascade="all, delete-orphan"` rule of the relationship marks every
member removed from the collection as an orphan, deleted when
`get_db` (app/database.py lines 47-55) commits the session at the end
of the request. Hence the persisted messages of the chat after the
call are exactly the page. -/
def get_chat_with_messages (db : DB) (cid : Nat) (limit : Nat := 20)
    (offset : Nat := 0) : Except Nat ((Chat × List Message) × DB) :=
  match get_chat_by_id db cid with
  | none => Except.error cid
  | some chat =>
      let page := messagesQuery db cid limit offset
      Except.ok ((chat, page),
        ⟨db.chats,
         db.messages.filter (fun m => decide (m.chat_id ≠ cid ∨ m ∈ page))⟩)

/-- `ChatService.create_message` (chat_service.py lines 106-138): check
the chat exists, else `ChatNotFoundException`; insert a message row
whose id and timestamp the store assigns (parameters here). -/
def create_message (db : DB) (cid : Nat) (text : PyStr)
    (newId newTime : Nat) : Except Nat (Message × DB) :=
  match get_chat_by_id db cid with
  | none => Except.error cid
  | some _ =>
      let msg : Message := ⟨newId, cid, text, newTime⟩
      Except.ok (msg, ⟨db.chats, db.messages ++ [msg]⟩)

/-- `ChatService.delete_chat` (chat_service.py lines 140-160): if the
chat is absent return `false` and leave the store alone; otherwise
delete the chat row, the `ondelete="CASCADE"` foreign key removing
every message row of the chat in the same statement. -/
def delete_chat (db : DB) (cid : Nat) : Bool × DB :=
  match get_chat_by_id db cid with
  | none => (false, db)
  | some _ =>
      (true,
       ⟨db.chats.filter (fun c => !(c.id == cid)),
        db.messages.filter (fun m => !(m.chat_id == cid))⟩)

end ChatService

/-- The error outcomes the boundary layer distinguishes:
a 422 request-validation error (raised by FastAPI/pydantic before the
handler body runs) and the 404 `ChatNotFoundException`. -/
inductive ApiError where
  | requestValidation
  | chatNotFound (cid : Nat)
deriving DecidableEq, Repr

namespace Router

/-- `POST /chats/{chat_id}/messages/` (app/routers/chats.py lines
51-79): FastAPI validates the `MessageCreate` body before the handler
body runs — a 422 is produced without any store access — then the
handler calls `ChatService.create_message`, whose
`ChatNotFoundException` rolls the session back (app/database.py).
The pair returned is (outcome, post-request store). -/
def create_message (db : DB) (cid : Nat) (rawText : PyStr)
    (newId newTime : Nat) : Except ApiError Message × DB :=
  match MessageCreate.validate rawText with
  | none => (Except.error ApiError.requestValidation, db)
  | some text =>
      match ChatService.create_message db cid text newId newTime with
      | Except.error c => (Except.error (ApiError.chatNotFound c), db)
      | Except.ok (msg, db2) => (Except.ok msg, db2)

/-- `GET /chats/{chat_id}` (app/routers/chats.py lines 82-110): the
query parameters carry `Query(ge=1, le=100)` and `Query(ge=0)`
constraints, checked by FastAPI before the handler body runs; then
`ChatService.get_chat_with_messages` is called and the session is
committed (success) or rolled back (`ChatNotFoundException`). -/
def get_chat (db : DB) (cid : Nat) (limit offset : Int) :
    Except ApiError (Chat × List Message) × DB :=
  if limit < 1 ∨ 100 < limit ∨ offset < 0 then
    (Except.error ApiError.requestValidation, db)
  else
    match ChatService.get_chat_with_messages db cid limit.toNat offset.toNat with
    | Except.error c => (Except.error (ApiError.chatNotFound c), db)
    | Except.ok (r, db2) => (Except.ok r, db2)

/-- `DELETE /chats/{chat_id}` (app/routers/chats.py lines 113-138):
call `ChatService.delete_chat`; a `false` result is turned into
`ChatNotFoundException` (404). -/
def delete_chat (db : DB) (cid : Nat) : Except ApiError Unit × DB :=
  match ChatService.delete_chat db cid with
  | (true, db2) => (Except.ok (), db2)
  | (false, _) => (Except.error (ApiError.chatNotFound cid), db)

end Router

/-! ### Facts about stripping -/

theorem dropWhile_idem (p : Char → Bool) :
    ∀ l : PyStr, (l.dropWhile p).dropWhile p = l.dropWhile p
  | [] => rfl
  | a :: t => by
    by_cases h : p a = true
    · simpa [List.dropWhile_cons, h] using dropWhile_idem p t
    · simp [List.dropWhile_cons, h]

theorem exists_append_dropWhile (p : Char → Bool) :
    ∀ l : PyStr, ∃ t, l = t ++ l.dropWhile p
  | [] => ⟨[], rfl⟩
  | a :: l => by
    by_cases h : p a = true
    · obtain ⟨t, ht⟩ := exists_append_dropWhile p l
      exact ⟨a :: t, by simpa [List.dropWhile_cons, h] using ht⟩
    · exact ⟨[], by simp [List.dropWhile_cons, h]⟩

theorem head_false_of_dropWhile (p : Char → Bool) :
    ∀ (l : PyStr) (a : Char) (t : PyStr), l.dropWhile p = a :: t → p a = false
  | [], a, t => by intro h; simp at h
  | b :: l, a, t => by
    by_cases h : p b = true
    · intro he
      exact head_false_of_dropWhile p l a t (by simpa [List.dropWhile_cons, h] using he)
    · intro he
      simp [List.dropWhile_cons, h] at he
      simpa [← he.1] using h

theorem length_dropWhile_le (p : Char → Bool) (l : PyStr) :
    (l.dropWhile p).length ≤ l.length := by
  obtain ⟨t, ht⟩ := exists_append_dropWhile p l
  have h2 := congrArg List.length ht
  simp only [List.length_append] at h2
  omega

theorem stripLeft_idem (s : PyStr) : stripLeft (stripLeft s) = stripLeft s :=
  dropWhile_idem pyIsSpace s

theorem stripRight_idem (s : PyStr) : stripRight (stripRight s) = stripRight s := by
  simp [stripRight, List.reverse_reverse, dropWhile_idem]

theorem stripLeft_stripRight_of_fix (s : PyStr) (h : stripLeft s = s) :
    stripLeft (stripRight s) = stripRight s := by
  cases hsr : stripRight s with
  | nil => simp [stripLeft]
  | cons a t =>
    obtain ⟨w, hw⟩ := exists_append_dropWhile pyIsSpace s.reverse
    have hs : s = stripRight s ++ w.reverse := by
      have := congrArg List.reverse hw
      simpa [stripRight, List.reverse_append] using this
    have hhead : pyIsSpace a = false := by
      apply head_false_of_dropWhile pyIsSpace s (a := a) (t := t ++ w.reverse)
      have : s.dropWhile pyIsSpace = s := h
      rw [this, hs, hsr]
      simp
    simp [stripLeft, List.dropWhile_cons, hhead]

theorem pyStrip_idem (s : PyStr) : pyStrip (pyStrip s) = pyStrip s := by
  unfold pyStrip
  rw [stripLeft_stripRight_of_fix (stripLeft s) (stripLeft_idem s), stripRight_idem]

theorem length_pyStrip_le (s : PyStr) : (pyStrip s).length ≤ s.length := by
  calc (pyStrip s).length ≤ (stripLeft s).length := by
        simpa [pyStrip, stripRight] using
          length_dropWhile_le pyIsSpace (stripLeft s).reverse
    _ ≤ s.length := length_dropWhile_le pyIsSpace s

/-! ### Characterization of the pydantic validation pipeline -/

theorem title_validate_eq_some_iff (raw t : PyStr) :
    ChatCreate.validate raw = some t ↔
      1 ≤ raw.length ∧ raw.length ≤ 200 ∧
      1 ≤ (pyStrip raw).length ∧ t = pyStrip raw := by
  have hle := length_pyStrip_le raw
  unfold ChatCreate.validate trim_and_validate_title
  split_ifs with h1 h2 h3 h4
  · exact iff_of_false (by simp) (by rintro ⟨ha, -, -, -⟩; omega)
  · exact iff_of_false (by simp) (by rintro ⟨-, hb, -, -⟩; omega)
  · exact iff_of_false (by simp) (by rintro ⟨-, -, hc, -⟩; omega)
  · exact iff_of_false (by simp) (by rintro ⟨-, hb, -, -⟩; omega)
  · simp only [Option.some.injEq]
    constructor
    · intro h
      exact ⟨by omega, by omega, by omega, h.symm⟩
    · rintro ⟨-, -, -, rfl⟩
      rfl

theorem text_validate_eq_some_iff (raw t : PyStr) :
    MessageCreate.validate raw = some t ↔
      1 ≤ raw.length ∧ raw.length ≤ 5000 ∧
      1 ≤ (pyStrip raw).length ∧ t = pyStrip raw := by
  have hle := length_pyStrip_le raw
  unfold MessageCreate.validate trim_and_validate_text
  split_ifs with h1 h2 h3 h4
  · exact iff_of_false (by simp) (by rintro ⟨ha, -, -, -⟩; omega)
  · exact iff_of_false (by simp) (by rintro ⟨-, hb, -, -⟩; omega)
  · exact iff_of_false (by simp) (by rintro ⟨-, -, hc, -⟩; omega)
  · exact iff_of_false (by simp) (by rintro ⟨-, hb, -, -⟩; omega)
  · simp only [Option.some.injEq]
    constructor
    · intro h
      exact ⟨by omega, by omega, by omega, h.symm⟩
    · rintro ⟨-, -, -, rfl⟩
      rfl

/-! ### Computation rules for stripping concrete shapes -/

theorem stripRight_append_one (s : PyStr) (c : Char) (hc : pyIsSpace c = true) :
    stripRight (s ++ [c]) = stripRight s := by
  rw [stripRight, stripRight, List.reverse_append]
  simp [List.dropWhile_cons_of_pos hc]

theorem stripRight_replicate (n : Nat) (c : Char) (hc : pyIsSpace c = false) :
    stripRight (List.replicate n c) = List.replicate n c := by
  cases n with
  | zero => rfl
  | succ m =>
    rw [stripRight, List.reverse_replicate, List.replicate_succ,
      List.dropWhile_cons_of_neg (by simp [hc]), ← List.replicate_succ,
      List.reverse_replicate]

theorem pyStrip_replicate (n : Nat) (c : Char) (hc : pyIsSpace c = false) :
    pyStrip (List.replicate n c) = List.replicate n c := by
  cases n with
  | zero => rfl
  | succ m =>
    have h1 : stripLeft (List.replicate (m + 1) c) = List.replicate (m + 1) c := by
      rw [stripLeft, List.replicate_succ, List.dropWhile_cons_of_neg (by simp [hc]),
        ← List.replicate_succ]
    rw [pyStrip, h1, stripRight_replicate _ _ hc]

/-- Stripping a block of `n + 1` non-space characters surrounded by two
spaces on each side yields the block. -/
theorem pyStrip_padded (n : Nat) (c : Char) (hc : pyIsSpace c = false) :
    pyStrip ([' ', ' '] ++ List.replicate (n + 1) c ++ [' ', ' ']) =
      List.replicate (n + 1) c := by
  have hsp : pyIsSpace ' ' = true := by decide
  have h1 : stripLeft ([' ', ' '] ++ List.replicate (n + 1) c ++ [' ', ' ']) =
      List.replicate (n + 1) c ++ [' ', ' '] := by
    show stripLeft (' ' :: ' ' :: (List.replicate (n + 1) c ++ [' ', ' '])) = _
    rw [stripLeft, List.dropWhile_cons_of_pos hsp, List.dropWhile_cons_of_pos hsp,
      List.replicate_succ, List.cons_append,
      List.dropWhile_cons_of_neg (by simp [hc]), ← List.cons_append,
      ← List.replicate_succ]
  have e : List.replicate (n + 1) c ++ [' ', ' '] =
      (List.replicate (n + 1) c ++ [' ']) ++ [' '] := by simp
  have h2 : stripRight (List.replicate (n + 1) c ++ [' ', ' ']) =
      List.replicate (n + 1) c := by
    rw [e, stripRight_append_one _ _ hsp, stripRight_append_one _ _ hsp,
      stripRight_replicate _ _ hc]
  rw [pyStrip, h1, h2]

/-! ### Claim theorems: validation layer -/

/-- A raw title of 204 characters whose trimmed form has exactly 200
characters: two spaces around 200 letters. -/
def paddedTitle : PyStr := [' ', ' '] ++ List.replicate 200 'a' ++ [' ', ' ']

/-- A raw text of 5004 characters whose trimmed form has exactly 5000
characters. -/
def paddedText : PyStr := [' ', ' '] ++ List.replicate 5000 'a' ++ [' ', ' ']

/-- C1: title/text validation is claimed to accept exactly when the
trimmed length lies in [1,200] (resp. [1,5000]), for any raw length.
The code does not: the pydantic field constraint max_length applies to
the raw, untrimmed value before the trimming validator runs, so a raw
title of 204 characters whose trimmed form has exactly 200 characters
is rejected (and likewise for text at 5000). This theorem evaluates
the embedded validation at those inputs: the trimmed lengths sit at
the claimed-acceptable maximum, yet validation rejects. -/
theorem C1_raw_length_decides_at_padded_boundary :
    (pyStrip paddedTitle).length = 200 ∧ ChatCreate.validate paddedTitle = none ∧
    (pyStrip paddedText).length = 5000 ∧ MessageCreate.validate paddedText = none := by
  have ha : pyIsSpace 'a' = false := by decide
  have ht : pyStrip paddedTitle = List.replicate 200 'a' := by
    rw [paddedTitle, show (200 : Nat) = 199 + 1 from rfl]
    exact pyStrip_padded 199 'a' ha
  have hx : pyStrip paddedText = List.replicate 5000 'a' := by
    rw [paddedText, show (5000 : Nat) = 4999 + 1 from rfl]
    exact pyStrip_padded 4999 'a' ha
  have hlt : paddedTitle.length = 204 := by
    rw [paddedTitle, List.length_append, List.length_append, List.length_replicate]
    rfl
  have hlx : paddedText.length = 5004 := by
    rw [paddedText, List.length_append, List.length_append, List.length_replicate]
    rfl
  refine ⟨by rw [ht, List.length_replicate], ?_, by rw [hx, List.length_replicate], ?_⟩
  · unfold ChatCreate.validate
    rw [if_neg (by omega), if_pos (by omega)]
  · unfold MessageCreate.validate
    rw [if_neg (by omega), if_pos (by omega)]

/-- C9 counterexample: two titles whose trimmed forms have at most 200
characters and which validation nevertheless rejects — a raw title of
204 characters trimming to 200 non-ASCII characters (rejected by the
raw-length field constraint), and the empty title (trimmed form of 0
characters is rejected, not accepted). -/
theorem C9_at_most_refuted :
    (pyStrip ([' ', ' '] ++ List.replicate 200 'é' ++ [' ', ' '])).length ≤ 200 ∧
    ChatCreate.validate ([' ', ' '] ++ List.replicate 200 'é' ++ [' ', ' ']) = none ∧
    (pyStrip ([] : PyStr)).length ≤ 200 ∧
    ChatCreate.validate ([] : PyStr) = none := by
  have he : pyIsSpace 'é' = false := by decide
  have hp : pyStrip ([' ', ' '] ++ List.replicate 200 'é' ++ [' ', ' ']) =
      List.replicate 200 'é' := by
    rw [show (200 : Nat) = 199 + 1 from rfl]
    exact pyStrip_padded 199 'é' he
  have hl : ([' ', ' '] ++ List.replicate 200 'é' ++ [' ', ' ']).length = 204 := by
    rw [List.length_append, List.length_append, List.length_replicate]
    rfl
  refine ⟨by rw [hp, List.length_replicate], ?_, by decide, by decide⟩
  unfold ChatCreate.validate
  rw [if_neg (by omega), if_pos (by omega)]

/-- C9 (amended): lengths for the validation bounds are counted in
unicode characters, never bytes. Every title whose raw form has at
most 200 characters and whose trimmed form is nonempty is accepted
with the trimmed form as value — with no constraint whatsoever on the
number of bytes of its encoding (the same for text with bound 5000).
The witness instantiates this with a title of 200 three-byte
characters, 600 bytes long. -/
theorem C9_chars_not_bytes (raw : PyStr) :
    (raw.length ≤ 200 → 1 ≤ (pyStrip raw).length →
      ChatCreate.validate raw = some (pyStrip raw)) ∧
    (raw.length ≤ 5000 → 1 ≤ (pyStrip raw).length →
      MessageCreate.validate raw = some (pyStrip raw)) := by
  have hle := length_pyStrip_le raw
  constructor
  · intro hraw hne
    exact (title_validate_eq_some_iff raw (pyStrip raw)).mpr
      ⟨by omega, hraw, hne, rfl⟩
  · intro hraw hne
    exact (text_validate_eq_some_iff raw (pyStrip raw)).mpr
      ⟨by omega, hraw, hne, rfl⟩

/-- C9 witness: a title of 200 euro signs occupies 600 UTF-8 bytes,
far beyond 200 bytes, and is accepted. -/
theorem C9_chars_not_bytes_witness :
    200 < utf8Length (List.replicate 200 '€') ∧
    ChatCreate.validate (List.replicate 200 '€') =
      some (pyStrip (List.replicate 200 '€')) := by
  have hc : pyIsSpace '€' = false := by decide
  have hs : pyStrip (List.replicate 200 '€') = List.replicate 200 '€' :=
    pyStrip_replicate 200 '€' hc
  refine ⟨?_, (C9_chars_not_bytes (List.replicate 200 '€')).1 (by simp) (by rw [hs]; simp)⟩
  have : utf8Length (List.replicate 200 '€') = 600 := by
    rw [utf8Length, List.map_replicate, show Char.utf8Size '€' = 3 from by decide,
      List.sum_replicate]
    simp
  omega

/-- C10: trimming is idempotent — stripping an already-stripped string
changes nothing — and consequently re-validating the output of a
successful title (resp. text) validation succeeds and returns it
unchanged. -/
theorem C10_trim_idempotent :
    (∀ s : PyStr, pyStrip (pyStrip s) = pyStrip s) ∧
    (∀ raw t : PyStr, ChatCreate.validate raw = some t →
      ChatCreate.validate t = some t) ∧
    (∀ raw t : PyStr, MessageCreate.validate raw = some t →
      MessageCreate.validate t = some t) := by
  refine ⟨pyStrip_idem, ?_, ?_⟩
  · intro raw t h
    obtain ⟨h1, h2, h3, rfl⟩ := (title_validate_eq_some_iff raw t).mp h
    exact (title_validate_eq_some_iff _ _).mpr
      ⟨h3, (length_pyStrip_le raw).trans h2, by rw [pyStrip_idem]; exact h3,
       (pyStrip_idem raw).symm⟩
  · intro raw t h
    obtain ⟨h1, h2, h3, rfl⟩ := (text_validate_eq_some_iff raw t).mp h
    exact (text_validate_eq_some_iff _ _).mpr
      ⟨h3, (length_pyStrip_le raw).trans h2, by rw [pyStrip_idem]; exact h3,
       (pyStrip_idem raw).symm⟩

/-- C10 witness: concrete instances of the three conjuncts. -/
theorem C10_trim_idempotent_witness :
    pyStrip (pyStrip [' ', 'a', ' ']) = pyStrip [' ', 'a', ' '] ∧
    ChatCreate.validate ['a'] = some ['a'] ∧
    MessageCreate.validate ['b'] = some ['b'] :=
  ⟨C10_trim_idempotent.1 [' ', 'a', ' '],
   C10_trim_idempotent.2.1 [' ', 'a'] ['a'] (by decide),
   C10_trim_idempotent.2.2 [' ', 'b'] ['b'] (by decide)⟩

/-! ### Claim theorems: orchestration and boundary layers -/

instance {e a : Type} [DecidableEq e] [DecidableEq a] : DecidableEq (Except e a)
  | Except.error x, Except.error y => decidable_of_iff (x = y) (by simp)
  | Except.error _, Except.ok _ => isFalse (by simp)
  | Except.ok _, Except.error _ => isFalse (by simp)
  | Except.ok x, Except.ok y => decidable_of_iff (x = y) (by simp)

/-- A store with one chat owning three messages at strictly increasing
creation times: the shared concrete scenario of the test suite. -/
def wchat : Chat := ⟨1, ['c'], 0⟩

def wm1 : Message := ⟨1, 1, ['x'], 1⟩

def wm2 : Message := ⟨2, 1, ['y'], 2⟩

def wm3 : Message := ⟨3, 1, ['z'], 3⟩

def wdb : DB := ⟨[wchat], [wm1, wm2, wm3]⟩

/-- C2: for a chat holding N messages, a limit k with 1 ≤ k < N and
any offset o, retrieval returns the found chat together with the page
obtained by sorting the messages of the chat by creation time
descending, skipping the o most recent and taking at most k; the page
holds exactly min(k, N-o) messages and is sorted newest-first. -/
theorem C2_get_chat_paginates (db : DB) (cid k o : Nat) (chat : Chat)
    (hfind : ChatService.get_chat_by_id db cid = some chat)
    (hk : 1 ≤ k) (hkN : k < (chatMessages db cid).length) :
    (∃ db2, ChatService.get_chat_with_messages db cid k o =
      Except.ok ((chat, ChatService.messagesQuery db cid k o), db2)) ∧
    ChatService.messagesQuery db cid k o =
      ((sortByCreatedDesc (chatMessages db cid)).drop o).take k ∧
    (ChatService.messagesQuery db cid k o).length =
      min k ((chatMessages db cid).length - o) ∧
    List.Sorted createdDesc (ChatService.messagesQuery db cid k o) := by
  have hmain : ChatService.get_chat_with_messages db cid k o =
      Except.ok ((chat, ChatService.messagesQuery db cid k o),
        ⟨db.chats, db.messages.filter
          (fun m => decide (m.chat_id ≠ cid ∨ m ∈ ChatService.messagesQuery db cid k o))⟩) := by
    unfold ChatService.get_chat_with_messages
    rw [hfind]
  refine ⟨⟨_, hmain⟩, rfl, ?_, ?_⟩
  · unfold ChatService.messagesQuery
    rw [List.length_take, List.length_drop, sortByCreatedDesc,
      List.length_insertionSort]
  · have hs : List.Sorted createdDesc (sortByCreatedDesc (chatMessages db cid)) :=
      List.sorted_insertionSort createdDesc _
    exact List.Pairwise.sublist
      ((List.take_sublist _ _).trans (List.drop_sublist _ _)) hs

/-- C2 witness: three messages, limit 2, offset 1: the page is the two
messages older than the most recent one, newest first. -/
theorem C2_get_chat_paginates_witness :
    (∃ db2, ChatService.get_chat_with_messages wdb 1 2 1 =
      Except.ok ((wchat, ChatService.messagesQuery wdb 1 2 1), db2)) ∧
    ChatService.messagesQuery wdb 1 2 1 =
      ((sortByCreatedDesc (chatMessages wdb 1)).drop 1).take 2 ∧
    (ChatService.messagesQuery wdb 1 2 1).length =
      min 2 ((chatMessages wdb 1).length - 1) ∧
    List.Sorted createdDesc (ChatService.messagesQuery wdb 1 2 1) :=
  C2_get_chat_paginates wdb 1 2 1 wchat (by decide) (by decide) (by decide)

/-- C3: retrieving a chat is claimed to leave the persisted store
unchanged, yet it does not: the handler replaces the eagerly loaded
relationship collection by the requested page, the delete-orphan
cascade marks the remaining messages as orphans, and the end-of-request
commit deletes them. On a chat with three messages, a GET with
limit 1 leaves exactly one persisted message. -/
theorem C3_get_chat_commit_deletes_messages :
    (Router.get_chat wdb 1 1 0).1 = Except.ok (wchat, [wm3]) ∧
    (Router.get_chat wdb 1 1 0).2.messages = [wm3] ∧
    (Router.get_chat wdb 1 1 0).2 ≠ wdb := by
  refine ⟨by decide, by decide, by decide⟩

/-- C4: deleting an existing chat removes the chat row and every
message row referencing it; afterwards the lookup finds nothing,
retrieval fails with the not-found error for every limit and offset,
and no message of the chat remains in the store (so no operation,
all of which read only the store, can return one). -/
theorem C4_delete_chat_cascades (db : DB) (cid : Nat) (chat : Chat)
    (hfind : ChatService.get_chat_by_id db cid = some chat) :
    (ChatService.delete_chat db cid).1 = true ∧
    ChatService.get_chat_by_id (ChatService.delete_chat db cid).2 cid = none ∧
    (∀ m ∈ (ChatService.delete_chat db cid).2.messages, m.chat_id ≠ cid) ∧
    (∀ limit offset,
      ChatService.get_chat_with_messages (ChatService.delete_chat db cid).2
        cid limit offset = Except.error cid) := by
  have hdel : ChatService.delete_chat db cid =
      (true, ⟨db.chats.filter (fun c => !(c.id == cid)),
              db.messages.filter (fun m => !(m.chat_id == cid))⟩) := by
    unfold ChatService.delete_chat
    rw [hfind]
  have hchats : (ChatService.delete_chat db cid).2.chats.find?
      (fun c => c.id == cid) = none := by
    rw [hdel, List.find?_eq_none]
    intro c hc
    have h2 := (List.mem_filter.mp hc).2
    simp only [Bool.not_eq_eq_eq_not, Bool.not_true, beq_eq_false_iff_ne] at h2
    simp [h2]
  refine ⟨by rw [hdel], hchats, ?_, ?_⟩
  · intro m hm
    rw [hdel] at hm
    have h2 := (List.mem_filter.mp hm).2
    simpa using h2
  · intro limit offset
    unfold ChatService.get_chat_with_messages
    rw [show ChatService.get_chat_by_id (ChatService.delete_chat db cid).2 cid
        = none from hchats]

/-- C4 witness: deleting the populated chat of the shared store. -/
theorem C4_delete_chat_cascades_witness :
    (ChatService.delete_chat wdb 1).1 = true ∧
    ChatService.get_chat_by_id (ChatService.delete_chat wdb 1).2 1 = none ∧
    ChatService.get_chat_with_messages (ChatService.delete_chat wdb 1).2 1 20 0 =
      Except.error 1 := by
  have h := C4_delete_chat_cascades wdb 1 wchat (by decide)
  exact ⟨h.1, h.2.1, h.2.2.2 20 0⟩

/-- C5: deleting a chat id that does not exist returns the falsy
indicator with the store untouched, and the boundary layer turns it
into the not-found error, again with the store untouched. -/
theorem C5_delete_missing_chat_is_noop (db : DB) (cid : Nat)
    (hnone : ChatService.get_chat_by_id db cid = none) :
    ChatService.delete_chat db cid = (false, db) ∧
    Router.delete_chat db cid = (Except.error (ApiError.chatNotFound cid), db) := by
  have h1 : ChatService.delete_chat db cid = (false, db) := by
    unfold ChatService.delete_chat
    rw [hnone]
  refine ⟨h1, ?_⟩
  unfold Router.delete_chat
  rw [h1]

/-- C5 witness: deleting chat 7 from the empty store. -/
theorem C5_delete_missing_chat_is_noop_witness :
    ChatService.delete_chat ⟨[], []⟩ 7 = (false, ⟨[], []⟩) ∧
    Router.delete_chat ⟨[], []⟩ 7 =
      (Except.error (ApiError.chatNotFound 7), ⟨[], []⟩) :=
  C5_delete_missing_chat_is_noop ⟨[], []⟩ 7 (by decide)

/-- C6: message-text validation runs before the chat-existence check:
whenever the raw text fails validation, the endpoint reports the
request-validation error — never not-found — and the store is
untouched, for every store and every chat id, existing or not. -/
theorem C6_validation_precedes_existence_check (db : DB) (cid : Nat)
    (rawText : PyStr) (newId newTime : Nat)
    (hbad : MessageCreate.validate rawText = none) :
    Router.create_message db cid rawText newId newTime =
      (Except.error ApiError.requestValidation, db) := by
  unfold Router.create_message
  rw [hbad]

/-- C6 witness: whitespace-only text posted to a chat id absent from
the empty store yields the validation error, not not-found. -/
theorem C6_validation_precedes_existence_check_witness :
    Router.create_message ⟨[], []⟩ 42 [' '] 1 1 =
      (Except.error ApiError.requestValidation, ⟨[], []⟩) :=
  C6_validation_precedes_existence_check ⟨[], []⟩ 42 [' '] 1 1 (by decide)

/-- C7 counterexample: a message text whose trimmed length is exactly
5000 — valid in the claim's sense — posted to a chat id absent from
the empty store does not produce the not-found error: its raw form has
5004 characters, so the raw-length field constraint rejects it as a
validation error before the existence check. -/
theorem C7_valid_trimmed_text_refuted :
    (pyStrip paddedText).length = 5000 ∧
    ChatService.get_chat_by_id ⟨[], []⟩ 9 = none ∧
    Router.create_message ⟨[], []⟩ 9 paddedText 1 1 =
      (Except.error ApiError.requestValidation, ⟨[], []⟩) := by
  have ha : pyIsSpace 'a' = false := by decide
  have hx : pyStrip paddedText = List.replicate 5000 'a' := by
    rw [paddedText, show (5000 : Nat) = 4999 + 1 from rfl]
    exact pyStrip_padded 4999 'a' ha
  have hlx : paddedText.length = 5004 := by
    rw [paddedText, List.length_append, List.length_append, List.length_replicate]
    rfl
  have hbad : MessageCreate.validate paddedText = none := by
    unfold MessageCreate.validate
    rw [if_neg (by omega), if_pos (by omega)]
  refine ⟨by rw [hx, List.length_replicate], by decide, ?_⟩
  unfold Router.create_message
  rw [hbad]

/-- C7 (amended): for every message text whose trimmed length is in
[1,5000] and whose raw length is at most 5000 — the texts the code's
validation accepts — posting to a chat id that does not exist fails
with the not-found error carrying that id, and no message row is
inserted. -/
theorem C7_create_message_missing_chat (db : DB) (cid : Nat)
    (rawText : PyStr) (newId newTime : Nat)
    (hraw : rawText.length ≤ 5000) (htrim : 1 ≤ (pyStrip rawText).length)
    (hnone : ChatService.get_chat_by_id db cid = none) :
    Router.create_message db cid rawText newId newTime =
      (Except.error (ApiError.chatNotFound cid), db) := by
  have hok : MessageCreate.validate rawText = some (pyStrip rawText) :=
    (text_validate_eq_some_iff rawText (pyStrip rawText)).mpr
      ⟨by have := length_pyStrip_le rawText; omega, hraw, htrim, rfl⟩
  unfold Router.create_message
  rw [hok]
  unfold ChatService.create_message
  rw [hnone]

/-- C7 witness: a one-letter text against the empty store. -/
theorem C7_create_message_missing_chat_witness :
    Router.create_message ⟨[], []⟩ 9 ['h'] 1 1 =
      (Except.error (ApiError.chatNotFound 9), ⟨[], []⟩) :=
  C7_create_message_missing_chat ⟨[], []⟩ 9 ['h'] 1 1 (by decide) (by decide)
    (by decide)

/-- C8: a limit outside [1,100] or a negative offset is rejected as a
request-validation error with the store untouched, and the outcome is
computed without consulting the store at all — it is the same for
every store, in particular for stores in which the chat id does not
exist. -/
theorem C8_out_of_range_rejected_before_store (db : DB) (cid : Nat)
    (limit offset : Int) (hbad : limit < 1 ∨ 100 < limit ∨ offset < 0) :
    Router.get_chat db cid limit offset =
      (Except.error ApiError.requestValidation, db) ∧
    ∀ db2 : DB, (Router.get_chat db2 cid limit offset).1 =
      (Router.get_chat db cid limit offset).1 := by
  constructor
  · unfold Router.get_chat
    rw [if_pos hbad]
  · intro db2
    unfold Router.get_chat
    rw [if_pos hbad, if_pos hbad]

/-- C8 witness: limit 101 against the empty store (chat 5 absent)
gives the validation error, with the same outcome on a store that does
hold a chat. -/
theorem C8_out_of_range_rejected_before_store_witness :
    Router.get_chat ⟨[], []⟩ 5 101 0 =
      (Except.error ApiError.requestValidation, ⟨[], []⟩) ∧
    (Router.get_chat ⟨[wchat], []⟩ 5 101 0).1 =
      (Router.get_chat ⟨[], []⟩ 5 101 0).1 := by
  have h := C8_out_of_range_rejected_before_store ⟨[], []⟩ 5 101 0 (by decide)
  exact ⟨h.1, h.2 ⟨[wchat], []⟩⟩

end ChatApi
